import Mathlib

/-!
Verification of the mac-dictation core against its specification.

The definitions below are a shallow embedding of the Go source:

* `receiveLoop`, `endStream` embed the Deepgram streaming session
  (`internal/transcription/deepgram.go`, `StartStream`'s receive goroutine
  and `EndStream`).
* `stopStreaming`, `stopNonStreaming` embed the two `App.StopRecording`
  variants from `app.go`.
* `stopRecording`, `cancelRecording` embed the audio `Recorder`
  (`internal/audio/audio.go`).
* `improveMessageText` embeds `App.ImproveMessageText`.
* `messagesLookup`, `threadsLookup` embed `MessageService.Lookup` and
  `ThreadService.Lookup` (`internal/storage`).

External effects (websocket reads, database row scans, HTTP completions)
are passed in as explicit inputs, so every definition is executable.
-/

/-! ## Deepgram streaming session (internal/transcription/deepgram.go) -/

/-- One websocket read result as seen by the receive loop in `StartStream`.
`closeNormal` is a read error recognised by `websocket.IsCloseError(err,
CloseNormalClosure)`; `readError` is any other read error; `badJson` is an
outer `json.Unmarshal` failure; `resultsBadJson` is a failure unmarshalling
a `Results` payload; `results` carries the decoded alternatives and the
`is_final` flag; `other` is an unrecognised message type (ignored). -/
inductive InEvent where
  | closeNormal
  | readError (e : String)
  | badJson (e : String)
  | resultsBadJson (e : String)
  | results (alts : List String) (isFinal : Bool)
  | utteranceEnd
  | other (t : String)
deriving DecidableEq, Repr

/-- Events that terminate the receive loop (every `return` in the goroutine). -/
def InEvent.isTerminal : InEvent → Bool
  | .closeNormal => true
  | .readError _ => true
  | .badJson _ => true
  | .resultsBadJson _ => true
  | _ => false

/-- In-loop mutable state: the `strings.Builder` accumulator and the ordered
record of `onResult` callback invocations `(text, isFinal)`. -/
structure LoopState where
  transcript : String
  callbacks : List (String × Bool)
deriving DecidableEq, Repr

/-- State of the session once the receive goroutine has stopped (or failed to
stop): the accumulator, the callback record, the contents of the buffered
`err` channel, and whether `close(s.done)` has run (the goroutine's `defer`,
which runs exactly when the loop returns). -/
structure LoopOutcome where
  transcript : String
  callbacks : List (String × Bool)
  errSlot : Option String
  doneClosed : Bool
deriving DecidableEq, Repr

/-- The accumulator update for a final, non-empty fragment:
`if s.transcript.Len() > 0 { s.transcript.WriteString(" ") };
s.transcript.WriteString(transcript)`. -/
def appendFinal (acc t : String) : String :=
  if acc.length > 0 then acc ++ " " ++ t else acc ++ t

/-- The body of the `Results` case for a non-empty alternatives list with
first transcript `t`: `if s.onResult != nil && transcript != "" {
s.onResult(transcript, result.IsFinal) }` then
`if result.IsFinal && transcript != "" { ...append... }`. -/
def resultsStep (st : LoopState) (t : String) (isFinal : Bool) : LoopState :=
  let st1 : LoopState :=
    if t ≠ "" then ⟨st.transcript, st.callbacks ++ [(t, isFinal)]⟩ else st
  if isFinal = true ∧ t ≠ "" then ⟨appendFinal st1.transcript t, st1.callbacks⟩ else st1

/-- The receive goroutine of `DeepgramService.StartStream`, run over a finite
trace of read results. An exhausted trace with no terminal event models the
loop still blocked in `c.ReadMessage()`: `done` is not closed. -/
def receiveLoop : LoopState → List InEvent → LoopOutcome
  | st, [] => ⟨st.transcript, st.callbacks, none, false⟩
  | st, ev :: rest =>
    match ev with
    | .closeNormal => ⟨st.transcript, st.callbacks, none, true⟩
    | .readError e =>
        ⟨st.transcript, st.callbacks, some ("failed to read message: " ++ e), true⟩
    | .badJson e =>
        ⟨st.transcript, st.callbacks, some ("failed to unmarshal message: " ++ e), true⟩
    | .resultsBadJson e =>
        ⟨st.transcript, st.callbacks, some ("failed to unmarshal result message: " ++ e), true⟩
    | .results alts isFinal =>
        match alts with
        | [] => receiveLoop st rest
        | t :: _ => receiveLoop (resultsStep st t isFinal) rest
    | .utteranceEnd => receiveLoop ⟨st.transcript ++ "\n", st.callbacks⟩ rest
    | .other _ => receiveLoop st rest

/-- Observable outcome of `EndStream`: either the call blocks forever on
`<-s.done`, or it returns a result together with the value left in the
transcript accumulator after the call. -/
inductive EndOutcome where
  | hangs
  | returns (res : Except String String) (accAfter : String)
deriving Repr

/-- `DeepgramService.EndStream`, given whether the connection is open, whether
sending the `CloseStream` message succeeded, and the state of the receive
goroutine. It waits on `done`, then drains the `err` channel: a captured
error is returned with the accumulator left as-is, otherwise the accumulator
is read, reset, and returned. -/
def endStream (connOpen sendOk : Bool) (out : LoopOutcome) : EndOutcome :=
  if connOpen = false then .returns (.error "connection not started") out.transcript
  else if sendOk = false then .returns (.error "send CloseStream failed") out.transcript
  else if out.doneClosed = false then .hangs
  else
    match out.errSlot with
    | some e => .returns (.error e) out.transcript
    | none => .returns (.ok out.transcript) ""

/-- Space-joined concatenation: the specification's "joined by single spaces". -/
def joinSp : List String → String
  | [] => ""
  | [w] => w
  | w :: rest => w ++ " " ++ joinSp rest

/-- The trace in which each listed fragment arrives as a final `Results`
message with a single alternative. -/
def finalsTrace (ws : List String) : List InEvent :=
  ws.map fun w => InEvent.results [w] true

theorem append_append_ne_empty (a b : String) : a ++ " " ++ b ≠ "" := by
  intro h
  have hlen := congrArg String.length h
  rw [String.length_append, String.length_append] at hlen
  have h1 : (" " : String).length = 1 := rfl
  have h0 : ("" : String).length = 0 := rfl
  rw [h1, h0] at hlen
  omega

theorem length_pos_of_ne_empty {a : String} (h : a ≠ "") : a.length > 0 := by
  rcases Nat.eq_zero_or_pos a.length with h0 | h1
  · exact absurd (String.ext (List.length_eq_zero.mp h0)) h
  · exact h1

theorem appendFinal_of_ne_empty {acc : String} (t : String) (h : acc ≠ "") :
    appendFinal acc t = acc ++ " " ++ t := by
  simp [appendFinal, length_pos_of_ne_empty h]

/-- One final non-empty fragment: the callback fires and the accumulator is
extended. -/
theorem receiveLoop_final_step (st : LoopState) (t : String) (rest : List InEvent)
    (h : t ≠ "") :
    receiveLoop st (InEvent.results [t] true :: rest)
      = receiveLoop ⟨appendFinal st.transcript t, st.callbacks ++ [(t, true)]⟩ rest := by
  simp [receiveLoop, resultsStep, h]

/-- Running the loop over final-fragment events only, starting from a
non-empty accumulator, appends each fragment with a single space. -/
theorem receiveLoop_finals_ne (ws : List String) :
    ∀ st : LoopState, (∀ w ∈ ws, w ≠ "") → st.transcript ≠ "" →
      (receiveLoop st (finalsTrace ws ++ [InEvent.closeNormal])).transcript
        = st.transcript ++ joinSp ("" :: ws) := by
  induction ws with
  | nil =>
    intro st _ _
    simp [finalsTrace, receiveLoop, joinSp, String.append_empty]
  | cons w rest ih =>
    intro st hw hst
    have hwne : w ≠ "" := hw w (by simp)
    have hrest : ∀ v ∈ rest, v ≠ "" := fun v hv => hw v (by simp [hv])
    have htr : finalsTrace (w :: rest) ++ [InEvent.closeNormal]
        = InEvent.results [w] true :: (finalsTrace rest ++ [InEvent.closeNormal]) := rfl
    rw [htr, receiveLoop_final_step st w _ hwne]
    have hacc : appendFinal st.transcript w = st.transcript ++ " " ++ w :=
      appendFinal_of_ne_empty w hst
    have hne : appendFinal st.transcript w ≠ "" := by
      rw [hacc]; exact append_append_ne_empty _ _
    rw [ih ⟨appendFinal st.transcript w, st.callbacks ++ [(w, true)]⟩ hrest hne]
    show appendFinal st.transcript w ++ joinSp ("" :: rest)
      = st.transcript ++ joinSp ("" :: w :: rest)
    rw [hacc]
    cases rest with
    | nil =>
      show st.transcript ++ " " ++ w ++ joinSp [""] = st.transcript ++ ("" ++ " " ++ w)
      simp [joinSp, String.append_empty, String.empty_append, String.append_assoc]
    | cons v vs =>
      show st.transcript ++ " " ++ w ++ joinSp ("" :: v :: vs)
        = st.transcript ++ ("" ++ " " ++ joinSp (w :: v :: vs))
      have hj : joinSp ("" :: v :: vs) = "" ++ " " ++ joinSp (v :: vs) := rfl
      have hj2 : joinSp (w :: v :: vs) = w ++ " " ++ joinSp (v :: vs) := rfl
      rw [hj, hj2]
      simp [String.empty_append, String.append_assoc]

/-- Running the loop over final-fragment events only, from the empty
accumulator, yields the space-joined concatenation of the fragments. -/
theorem receiveLoop_finals (ws : List String) (h : ∀ w ∈ ws, w ≠ "") :
    (receiveLoop ⟨"", []⟩ (finalsTrace ws ++ [InEvent.closeNormal])).transcript
      = joinSp ws := by
  cases ws with
  | nil => simp [finalsTrace, receiveLoop, joinSp]
  | cons w rest =>
    have hwne : w ≠ "" := h w (by simp)
    have hrest : ∀ v ∈ rest, v ≠ "" := fun v hv => h v (by simp [hv])
    have htr : finalsTrace (w :: rest) ++ [InEvent.closeNormal]
        = InEvent.results [w] true :: (finalsTrace rest ++ [InEvent.closeNormal]) := rfl
    rw [htr, receiveLoop_final_step _ w _ hwne]
    have hacc : appendFinal (LoopState.mk "" []).transcript w = w := by
      simp [appendFinal, String.empty_append]
    have hne : appendFinal (LoopState.mk "" []).transcript w ≠ "" := by rw [hacc]; exact hwne
    cases rest with
    | nil =>
      show (receiveLoop ⟨appendFinal "" w, [] ++ [(w, true)]⟩ [InEvent.closeNormal]).transcript
        = joinSp [w]
      simp [receiveLoop, joinSp, hacc]
    | cons v vs =>
      rw [receiveLoop_finals_ne (v :: vs) ⟨appendFinal "" w, [] ++ [(w, true)]⟩ hrest hne]
      show appendFinal "" w ++ joinSp ("" :: v :: vs) = joinSp (w :: v :: vs)
      have hj : joinSp ("" :: v :: vs) = "" ++ " " ++ joinSp (v :: vs) := rfl
      have hj2 : joinSp (w :: v :: vs) = w ++ " " ++ joinSp (v :: vs) := rfl
      rw [hacc, hj, hj2]
      simp [String.empty_append, String.append_assoc]

/-- Every trace containing a terminal read result makes the receive goroutine
return, and hence run its deferred `close(s.done)`. -/
theorem receiveLoop_done_of_terminal (trace : List InEvent) :
    ∀ st : LoopState, (∃ ev ∈ trace, ev.isTerminal = true) →
      (receiveLoop st trace).doneClosed = true := by
  induction trace with
  | nil =>
    intro st h
    rcases h with ⟨ev, hm, _⟩
    simp at hm
  | cons ev rest ih =>
    intro st h
    by_cases hterm : ev.isTerminal = true
    · cases ev <;> first
        | rfl
        | simp [InEvent.isTerminal] at hterm
    · have h' : ∃ ev ∈ rest, ev.isTerminal = true := by
        rcases h with ⟨ev', hm, ht⟩
        rcases List.mem_cons.mp hm with heq | hm'
        · exact absurd (heq ▸ ht) hterm
        · exact ⟨ev', hm', ht⟩
      cases ev with
      | closeNormal => rfl
      | readError e => rfl
      | badJson e => rfl
      | resultsBadJson e => rfl
      | results alts isFinal =>
        cases alts with
        | nil => exact ih st h'
        | cons t ts => exact ih (resultsStep st t isFinal) h'
      | utteranceEnd => exact ih ⟨st.transcript ++ "\n", st.callbacks⟩ h'
      | other t => exact ih st h'

/-- Over a finals-only trace closed normally, the loop captures no error and
signals completion. -/
theorem receiveLoop_finals_clean (ws : List String) :
    ∀ st : LoopState,
      (receiveLoop st (finalsTrace ws ++ [InEvent.closeNormal])).errSlot = none
      ∧ (receiveLoop st (finalsTrace ws ++ [InEvent.closeNormal])).doneClosed = true := by
  induction ws with
  | nil => intro st; exact ⟨rfl, rfl⟩
  | cons w rest ih => intro st; exact ih (resultsStep st w true)

/-- Claim C1: for a session whose receive loop is delivered final transcript
fragments (all non-empty) and then a normal close, `EndStream` returns their
order-preserving concatenation joined by single spaces; and an
utterance-boundary signal appends a literal newline to the accumulator. -/
theorem c1_transcript_accumulation (ws : List String) (h : ∀ w ∈ ws, w ≠ "") :
    endStream true true (receiveLoop ⟨"", []⟩ (finalsTrace ws ++ [InEvent.closeNormal]))
      = .returns (.ok (joinSp ws)) ""
    ∧ ∀ acc cbs, (receiveLoop ⟨acc, cbs⟩
        [InEvent.utteranceEnd, InEvent.closeNormal]).transcript = acc ++ "\n" := by
  constructor
  · have h1 := receiveLoop_finals ws h
    have h2 := (receiveLoop_finals_clean ws ⟨"", []⟩).2
    have h3 := (receiveLoop_finals_clean ws ⟨"", []⟩).1
    simp [endStream, h1, h2, h3]
  · intro acc cbs
    rfl

/-- Concrete run of claim C1: final fragments "hello" then "world" give the
transcript "hello world", and an utterance boundary appends a newline. -/
theorem c1_transcript_accumulation_witness :
    endStream true true (receiveLoop ⟨"", []⟩
        (finalsTrace ["hello", "world"] ++ [InEvent.closeNormal]))
      = .returns (.ok "hello world") ""
    ∧ (receiveLoop ⟨"hello world", []⟩
        [InEvent.utteranceEnd, InEvent.closeNormal]).transcript = "hello world\n" := by
  have h := c1_transcript_accumulation ["hello", "world"] (by decide)
  exact ⟨h.1, h.2 "hello world" []⟩

/-- Claim C2: whenever the read trace contains a terminating read result
(normal close, read error, or decode error), `EndStream` on the open session
returns rather than blocking forever, and a captured receive-loop error is
surfaced to the caller instead of a transcript. -/
theorem c2_endstream_terminates (st : LoopState) (trace : List InEvent)
    (h : ∃ ev ∈ trace, ev.isTerminal = true) :
    (∃ res acc, endStream true true (receiveLoop st trace) = .returns res acc)
    ∧ ∀ e, (receiveLoop st trace).errSlot = some e →
        endStream true true (receiveLoop st trace)
          = .returns (.error e) (receiveLoop st trace).transcript := by
  have hd := receiveLoop_done_of_terminal trace st h
  constructor
  · cases hslot : (receiveLoop st trace).errSlot with
    | some e =>
      exact ⟨.error e, (receiveLoop st trace).transcript, by simp [endStream, hd, hslot]⟩
    | none =>
      exact ⟨.ok (receiveLoop st trace).transcript, "", by simp [endStream, hd, hslot]⟩
  · intro e he
    simp [endStream, hd, he]

/-- Concrete run of claim C2: a mid-stream read error still lets `EndStream`
return, surfacing the wrapped read error. -/
theorem c2_endstream_terminates_witness :
    endStream true true (receiveLoop ⟨"", []⟩ [InEvent.readError "boom"])
      = .returns (.error "failed to read message: boom") "" := by
  have h := c2_endstream_terminates ⟨"", []⟩ [InEvent.readError "boom"]
    ⟨InEvent.readError "boom", by simp, rfl⟩
  exact h.2 "failed to read message: boom" rfl

/-- Claim C3 counterexample: after a final fragment "hello" and a read error,
`EndStream` surfaces the error but leaves the accumulator holding "hello" —
it is not reset to empty on the error path. -/
theorem c3_reset_counterexample :
    endStream true true (receiveLoop ⟨"", []⟩
        [InEvent.results ["hello"] true, InEvent.readError "connection reset"])
      = .returns (.error "failed to read message: connection reset") "hello"
    ∧ ("hello" : String) ≠ "" := by
  exact ⟨rfl, by decide⟩

/-- Claim C3 (amended): on the success path `EndStream` returns the pre-reset
accumulated transcript and resets the accumulator to empty; on the
receive-loop-error path it surfaces the error and leaves the accumulator
unchanged (no reset). -/
theorem c3_reset_amended (out : LoopOutcome) (h : out.doneClosed = true) :
    (out.errSlot = none →
        endStream true true out = .returns (.ok out.transcript) "")
    ∧ ∀ e, out.errSlot = some e →
        endStream true true out = .returns (.error e) out.transcript := by
  constructor
  · intro he; simp [endStream, h, he]
  · intro e he; simp [endStream, h, he]

/-- Concrete run of the amended claim C3: success path returns "hello" and
resets the accumulator. -/
theorem c3_reset_amended_witness :
    endStream true true ⟨"hello", [], none, true⟩ = .returns (.ok "hello") "" :=
  (c3_reset_amended ⟨"hello", [], none, true⟩ rfl).1 rfl

/-! ## App.StopRecording, streaming variant (app.go) -/

/-- Events the streaming `StopRecording` emits, in order. -/
inductive AppEvent where
  | recordingStopped
  | transcriptionProcessing
  | transcriptionDone (empty : Bool)
  | errorEvent (msg : String)
deriving DecidableEq, Repr

/-- Outcome of `persistTranscription`: which step failed (thread creation for
a nil `activeThreadID`, thread lookup otherwise, or the message insert), or
success; `messagePersistFailed`/`ok` record whether a new thread had already
been created in this call. -/
inductive PersistResult where
  | threadCreateFailed (e : String)
  | threadLookupFailed (e : String)
  | messagePersistFailed (e : String) (newThreadCreated : Bool)
  | ok (isNewThread : Bool)
deriving DecidableEq, Repr

/-- The environment of one streaming `StopRecording` call: the results of the
collaborator calls it makes. `audioLen` is the byte length of the audio the
recorder returns (this variant discards it), `durationSecs` the duration
sampled from `GetStatus` before stopping. -/
structure StopEnv where
  recorderStopErr : Option String
  audioLen : Nat
  durationSecs : Nat
  endStreamText : String
  endStreamErr : Option String
  persist : PersistResult
deriving DecidableEq, Repr

/-- Observable outcome of the streaming `StopRecording`. -/
structure StopOutcome where
  events : List AppEvent
  endStreamCalled : Bool
  messagesPersisted : Nat
  threadsCreated : Nat
  persistedDuration : Option Nat
deriving DecidableEq, Repr

/-- `App.StopRecording` (streaming variant, app.go): stops the recorder,
always calls `EndStream` next (an `EndStream` error is reported but not
fatal), emits the empty-flagged `transcription:completed` event when no text
was captured, and otherwise runs `persistTranscription`. Neither
`MaxTranscriptionBytes` nor the `min_recording_duration` setting is
consulted anywhere in this function. -/
def stopStreaming (env : StopEnv) : StopOutcome :=
  match env.recorderStopErr with
  | some e =>
    { events := [.errorEvent ("Error stopping recording: " ++ e)]
      endStreamCalled := false
      messagesPersisted := 0
      threadsCreated := 0
      persistedDuration := none }
  | none =>
    let evs1 : List AppEvent :=
      match env.endStreamErr with
      | some e => [.recordingStopped, .errorEvent ("Error ending transcriber: " ++ e)]
      | none => [.recordingStopped]
    if env.endStreamText = "" then
      { events := evs1 ++ [.transcriptionDone true]
        endStreamCalled := true
        messagesPersisted := 0
        threadsCreated := 0
        persistedDuration := none }
    else
      match env.persist with
      | .threadCreateFailed e =>
        { events := evs1 ++ [.transcriptionProcessing,
            .errorEvent ("Error persisting transcription: error creating thread: " ++ e)]
          endStreamCalled := true
          messagesPersisted := 0
          threadsCreated := 0
          persistedDuration := none }
      | .threadLookupFailed e =>
        { events := evs1 ++ [.transcriptionProcessing,
            .errorEvent ("Error persisting transcription: failed to lookup thread: " ++ e)]
          endStreamCalled := true
          messagesPersisted := 0
          threadsCreated := 0
          persistedDuration := none }
      | .messagePersistFailed e isNew =>
        { events := evs1 ++ [.transcriptionProcessing,
            .errorEvent ("Error persisting transcription: failed to persist message: " ++ e)]
          endStreamCalled := true
          messagesPersisted := 0
          threadsCreated := if isNew then 1 else 0
          persistedDuration := none }
      | .ok isNew =>
        { events := evs1 ++ [.transcriptionProcessing, .transcriptionDone false]
          endStreamCalled := true
          messagesPersisted := 1
          threadsCreated := if isNew then 1 else 0
          persistedDuration := some env.durationSecs }

/-- Whether an event is the `transcription:completed` notification with the
`empty` payload flag set. -/
def isEmptyDone : AppEvent → Bool
  | .transcriptionDone true => true
  | _ => false

def hasEmptyDone (o : StopOutcome) : Bool := o.events.any isEmptyDone

def isErrorEvent : AppEvent → Bool
  | .errorEvent _ => true
  | _ => false

def hasErrorEvent (o : StopOutcome) : Bool := o.events.any isErrorEvent

/-! ## App.StopRecording, non-streaming variant (app.go) -/

/-- Events the non-streaming `StopRecording` emits. -/
inductive NSEvent where
  | recordingStopped
  | transcriptionStart
  | transcriptionDone (text provider : String)
  | errorEvent (msg : String)
deriving DecidableEq, Repr

structure NSOutcome where
  events : List NSEvent
  transcribeCalls : Nat
deriving DecidableEq, Repr

/-- `audio.SampleRate`. -/
def sampleRate : Nat := 16000

/-- `audio.BytesPerSample`. -/
def bytesPerSample : Nat := 2

/-- `audio.BytesPerSecond = SampleRate * BytesPerSample`. -/
def bytesPerSecond : Nat := sampleRate * bytesPerSample

/-- `MaxTranscriptionBytes = 7 * 60 * audio.BytesPerSecond` (7 minutes of
16 kHz 16-bit mono audio). -/
def maxTranscriptionBytes : Nat := 7 * 60 * bytesPerSecond

/-- `App.StopRecording` (non-streaming variant, app.go): emits
`recording:stopped`, then rejects recordings whose byte length exceeds
`MaxTranscriptionBytes` before any `Transcribe` call. -/
def stopNonStreaming (recorderStopErr : Option String) (audioLen : Nat)
    (transcribeResult : Except String String) : NSOutcome :=
  match recorderStopErr with
  | some e => ⟨[.recordingStopped, .errorEvent e], 0⟩
  | none =>
    if audioLen > maxTranscriptionBytes then
      ⟨[.recordingStopped, .errorEvent ("recording too long for transcription (max "
          ++ toString (maxTranscriptionBytes / bytesPerSecond / 60) ++ " minutes)")], 0⟩
    else
      match transcribeResult with
      | .error e => ⟨[.recordingStopped, .transcriptionStart, .errorEvent e], 1⟩
      | .ok text =>
          ⟨[.recordingStopped, .transcriptionStart, .transcriptionDone text "deepgram"], 1⟩

/-- Claim C4 counterexample: a started recording that captured zero bytes
makes `recorder.StopRecording` fail with "no audio recorded", and the
streaming stop then produces neither a persisted message nor an emitted
empty-flagged notification — "never neither" fails on the code. -/
theorem c4_exactly_one_counterexample :
    (stopStreaming ⟨some "no audio recorded", 0, 1, "", none,
        PersistResult.ok true⟩).messagesPersisted = 0
    ∧ hasEmptyDone (stopStreaming ⟨some "no audio recorded", 0, 1, "", none,
        PersistResult.ok true⟩) = false := ⟨rfl, rfl⟩

/-- Claim C4 (amended): when `recorder.StopRecording` succeeds and — for a
non-empty transcript — `persistTranscription` succeeds, exactly one of
{a persisted message, an empty-flagged `transcription:completed`
notification} is produced; in the empty case no thread or message row is
created. On a recorder-stop or persistence failure neither outcome occurs
and an error event is emitted instead. -/
theorem c4_exactly_one_amended (env : StopEnv)
    (h1 : env.recorderStopErr = none)
    (h2 : env.endStreamText = "" ∨ ∃ b, env.persist = PersistResult.ok b) :
    (((stopStreaming env).messagesPersisted = 1
        ∧ hasEmptyDone (stopStreaming env) = false)
      ∨ ((stopStreaming env).messagesPersisted = 0
        ∧ hasEmptyDone (stopStreaming env) = true))
    ∧ (env.endStreamText = "" →
        (stopStreaming env).messagesPersisted = 0
        ∧ (stopStreaming env).threadsCreated = 0) := by
  rcases env with ⟨rse, al, ds, est, ese, p⟩
  simp only at h1 h2
  subst h1
  by_cases ht : est = ""
  · subst ht
    cases ese <;>
      simp [stopStreaming, hasEmptyDone, isEmptyDone]
  · rcases h2 with h2 | ⟨b, hp⟩
    · exact absurd h2 ht
    · subst hp
      constructor
      · left
        cases ese <;> cases b <;>
          simp [stopStreaming, hasEmptyDone, isEmptyDone, ht]
      · intro h; exact absurd h ht

/-- Concrete run of the amended claim C4: a successful stop with transcript
"hello world" persists exactly one message and emits no empty notification. -/
theorem c4_exactly_one_amended_witness :
    (stopStreaming ⟨none, 16000, 3, "hello world", none,
        PersistResult.ok true⟩).messagesPersisted = 1
    ∧ hasEmptyDone (stopStreaming ⟨none, 16000, 3, "hello world", none,
        PersistResult.ok true⟩) = false := by
  have h := c4_exactly_one_amended
    ⟨none, 16000, 3, "hello world", none, PersistResult.ok true⟩ rfl
    (Or.inr ⟨true, rfl⟩)
  rcases h.1 with h1 | h1
  · exact h1
  · exact absurd h1.1 (by decide)

/-- Claim C5: the streaming `StopRecording` never checks
`MaxTranscriptionBytes` — a recording one byte over the 7-minute cap is not
rejected: the stream is still ended and the transcript persisted with no
error event. Only the legacy non-streaming variant rejects that length, with
the descriptive error and zero `Transcribe` calls. -/
theorem c5_maxbytes_not_enforced :
    (stopStreaming ⟨none, maxTranscriptionBytes + 1, 421, "hello", none,
        PersistResult.ok true⟩).messagesPersisted = 1
    ∧ hasErrorEvent (stopStreaming ⟨none, maxTranscriptionBytes + 1, 421, "hello", none,
        PersistResult.ok true⟩) = false
    ∧ (stopStreaming ⟨none, maxTranscriptionBytes + 1, 421, "hello", none,
        PersistResult.ok true⟩).endStreamCalled = true
    ∧ (stopNonStreaming none (maxTranscriptionBytes + 1)
        (Except.ok "hello")).transcribeCalls = 0
    ∧ (stopNonStreaming none (maxTranscriptionBytes + 1) (Except.ok "hello")).events
        = [NSEvent.recordingStopped,
           NSEvent.errorEvent "recording too long for transcription (max 7 minutes)"] := by
  refine ⟨rfl, by decide, rfl, by decide, by decide⟩

/-- Claim C6: `StopRecording` performs no minimum-duration check (the
`min_recording_duration` setting is stored but never read by the backend): a
2-second recording against a 5-second minimum is not rejected — `EndStream`
is still called and the message persisted with duration 2, with no error
event. -/
theorem c6_minduration_not_enforced :
    (stopStreaming ⟨none, 2 * bytesPerSecond, 2, "short note", none,
        PersistResult.ok true⟩).endStreamCalled = true
    ∧ (stopStreaming ⟨none, 2 * bytesPerSecond, 2, "short note", none,
        PersistResult.ok true⟩).messagesPersisted = 1
    ∧ (stopStreaming ⟨none, 2 * bytesPerSecond, 2, "short note", none,
        PersistResult.ok true⟩).persistedDuration = some 2
    ∧ hasErrorEvent (stopStreaming ⟨none, 2 * bytesPerSecond, 2, "short note", none,
        PersistResult.ok true⟩) = false := by
  refine ⟨rfl, rfl, rfl, by decide⟩

/-! ## Audio recorder (internal/audio/audio.go) -/

/-- In-memory state of `audio.Recorder`: the recording flag, the buffer (a Go
nil slice is `none`), the recording start timestamp, and whether a device
handle is held. -/
structure RecorderState where
  isRecording : Bool
  audioBuffer : Option (List Nat)
  recordingStart : Nat
  deviceHeld : Bool
deriving DecidableEq, Repr

/-- `Recorder.StopRecording`: fails with "not recording" when idle; otherwise
stops and releases the device, clears the buffer and the flag, and returns
the captured bytes — failing with "no audio recorded" when there are none. -/
def stopRecording (st : RecorderState) (deviceStopOk : Bool) :
    Except String (List Nat) × RecorderState :=
  if st.isRecording = false then (.error "not recording", st)
  else if st.deviceHeld = true ∧ deviceStopOk = false then
    (.error "failed to stop capture device on stop", st)
  else
    let audioData := st.audioBuffer.getD []
    let st2 : RecorderState :=
      { st with isRecording := false, audioBuffer := none, deviceHeld := false }
    if audioData.length = 0 then (.error "no audio recorded", st2)
    else (.ok audioData, st2)

/-- `Recorder.CancelRecording`: returns nil (success) when idle — there is no
"not recording" error on this path; otherwise the same device teardown as
stop, discarding the buffer with no empty-buffer error. -/
def cancelRecording (st : RecorderState) (deviceStopOk : Bool) :
    Option String × RecorderState :=
  if st.isRecording = false then (none, st)
  else if st.deviceHeld = true ∧ deviceStopOk = false then
    (some "failed to stop capture device on cancel", st)
  else
    (none, { st with isRecording := false, audioBuffer := none, deviceHeld := false })

/-- Claim C7 counterexample: `CancelRecording` on an idle recorder returns a
nil error (success), not the claimed not-recording error; the state is
untouched. -/
theorem c7_not_recording_counterexample :
    (cancelRecording ⟨false, none, 0, false⟩ true).1 = none
    ∧ (cancelRecording ⟨false, none, 0, false⟩ true).2 = ⟨false, none, 0, false⟩ :=
  ⟨rfl, rfl⟩

/-- Claim C7 (amended): while not recording, `StopRecording` fails with the
"not recording" error and `CancelRecording` returns a nil error; both leave
the recorder state (flag, buffer, start time, device handle) unchanged. -/
theorem c7_not_recording_amended (st : RecorderState) (ok : Bool)
    (h : st.isRecording = false) :
    stopRecording st ok = (.error "not recording", st)
    ∧ cancelRecording st ok = (none, st) := by
  constructor
  · simp [stopRecording, h]
  · simp [cancelRecording, h]

/-- Concrete run of the amended claim C7 on an idle recorder. -/
theorem c7_not_recording_amended_witness :
    stopRecording ⟨false, none, 0, false⟩ true
      = (.error "not recording", ⟨false, none, 0, false⟩)
    ∧ cancelRecording ⟨false, none, 0, false⟩ true
      = (none, ⟨false, none, 0, false⟩) :=
  c7_not_recording_amended ⟨false, none, 0, false⟩ true rfl

/-! ## Message/thread storage rows (internal/storage) -/

/-- `storage.Message` row. -/
structure StoredMessage where
  id : Option Nat
  threadId : Nat
  originalText : String
  text : String
  provider : String
  durationSecs : Nat
  createdAt : Nat
  updatedAt : Nat
  deletedAt : Option Nat
deriving DecidableEq, Repr

/-- The Go zero value of `storage.Message`. -/
def zeroStoredMessage : StoredMessage := ⟨none, 0, "", "", "", 0, 0, 0, none⟩

/-- `storage.Thread` row. -/
structure StoredThread where
  id : Option Nat
  name : String
  pinned : Bool
  createdAt : Nat
  updatedAt : Nat
  deletedAt : Option Nat
deriving DecidableEq, Repr

/-- The Go zero value of `storage.Thread`. -/
def zeroStoredThread : StoredThread := ⟨none, "", false, 0, 0, none⟩

/-! ## App.ImproveMessageText (app.go) -/

inductive ImproveEvent where
  | errorEvent (msg : String)
  | textImproved (messageId : Nat) (improvedText : String)
deriving DecidableEq, Repr

/-- Collaborator results for one `ImproveMessageText` call: the message
lookup, the completion backend's response, and the persist outcome. -/
structure ImproveEnv where
  lookup : Except String StoredMessage
  promptResult : Except String String
  persistErr : Option String
deriving Repr

/-- Observable outcome of `ImproveMessageText` together with its background
task: the function's return value, the number of completion-backend calls,
the message written back (if any), and the emitted events. -/
structure ImproveOutcome where
  result : Option String
  backendCalls : Nat
  persistedMessage : Option StoredMessage
  events : List ImproveEvent
deriving DecidableEq, Repr

/-- `App.ImproveMessageText`: returns success immediately, with no
completion-backend call, when the message's cleaned text is already
non-empty; otherwise the background task prompts the backend, falls back to
`originalText` on an empty completion, persists the message, and emits
`message:text-improved`. -/
def improveMessageText (messageId : Nat) (env : ImproveEnv) : ImproveOutcome :=
  match env.lookup with
  | .error e => ⟨some ("message not found: " ++ e), 0, none, []⟩
  | .ok msg =>
    if msg.text ≠ "" then ⟨none, 0, none, []⟩
    else
      match env.promptResult with
      | .error e => ⟨none, 1, none, [.errorEvent ("Failed to improve text: " ++ e)]⟩
      | .ok completion =>
        let improvedText := if completion = "" then msg.originalText else completion
        let msg2 := { msg with text := improvedText }
        match env.persistErr with
        | some _ => ⟨none, 1, none, []⟩
        | none => ⟨none, 1, some msg2, [.textImproved messageId improvedText]⟩

/-- Claim C8: `ImproveMessageText` on a message whose cleaned text is already
non-empty returns success with zero completion-backend calls and no
modification or event — an idempotent no-op. -/
theorem c8_improve_idempotent (messageId : Nat) (env : ImproveEnv)
    (msg : StoredMessage) (h1 : env.lookup = .ok msg) (h2 : msg.text ≠ "") :
    improveMessageText messageId env = ⟨none, 0, none, []⟩ := by
  simp [improveMessageText, h1, h2]

/-- Concrete run of claim C8 on a message already improved to "done". -/
theorem c8_improve_idempotent_witness :
    improveMessageText 1
        ⟨.ok ⟨some 1, 1, "raw", "done", "deepgram", 2, 0, 0, none⟩, .ok "ignored", none⟩
      = ⟨none, 0, none, []⟩ :=
  c8_improve_idempotent 1 _ ⟨some 1, 1, "raw", "done", "deepgram", 2, 0, 0, none⟩
    rfl (by decide)

/-- Claim C9: on a message with empty cleaned text, when the completion
backend succeeds with the empty string, the message's text is set to its
`originalText` and the `message:text-improved` event carries that text. -/
theorem c9_empty_completion_fallback (messageId : Nat) (env : ImproveEnv)
    (msg : StoredMessage) (h1 : env.lookup = .ok msg) (h2 : msg.text = "")
    (h3 : env.promptResult = .ok "") (h4 : env.persistErr = none) :
    (improveMessageText messageId env).persistedMessage
      = some { msg with text := msg.originalText }
    ∧ (improveMessageText messageId env).events
      = [ImproveEvent.textImproved messageId msg.originalText] := by
  simp [improveMessageText, h1, h2, h3, h4]

/-- Concrete run of claim C9: an empty completion writes back the original
text "raw words". -/
theorem c9_empty_completion_fallback_witness :
    (improveMessageText 2
        ⟨.ok ⟨some 2, 1, "raw words", "", "deepgram", 2, 0, 0, none⟩, .ok "", none⟩).persistedMessage
      = some ⟨some 2, 1, "raw words", "raw words", "deepgram", 2, 0, 0, none⟩
    ∧ (improveMessageText 2
        ⟨.ok ⟨some 2, 1, "raw words", "", "deepgram", 2, 0, 0, none⟩, .ok "", none⟩).events
      = [ImproveEvent.textImproved 2 "raw words"] :=
  c9_empty_completion_fallback 2 _ ⟨some 2, 1, "raw words", "", "deepgram", 2, 0, 0, none⟩
    rfl rfl rfl rfl

/-! ## MessageService.Lookup and ThreadService.Lookup (internal/storage) -/

/-- Result of scanning the single row of a lookup query (the query itself
filters on `deleted_at IS NULL`). -/
inductive ScanResult (α : Type) where
  | ok (a : α)
  | noRows
  | otherErr (e : String)
deriving DecidableEq, Repr

/-- `MessageService.Lookup`: on `sql.ErrNoRows` it returns (nil, not-found
error); on any other scan error it falls through to `return &msg, nil`,
discarding the error and returning the zero-valued message. -/
def messagesLookup (id : Nat) (scan : ScanResult StoredMessage) :
    Option StoredMessage × Option String :=
  match scan with
  | .ok m => (some m, none)
  | .noRows => (none, some ("message with id " ++ toString id ++ " not found"))
  | .otherErr _ => (some zeroStoredMessage, none)

/-- `ThreadService.Lookup`: same shape, but `return &thread, err` propagates
a non-`ErrNoRows` scan error. -/
def threadsLookup (id : Nat) (scan : ScanResult StoredThread) :
    Option StoredThread × Option String :=
  match scan with
  | .ok t => (some t, none)
  | .noRows => (none, some ("thread with id " ++ toString id ++ " not found"))
  | .otherErr e => (some zeroStoredThread, some e)

/-- Claim C10: `MessageService.Lookup` returns the non-nil not-found error
exactly when the scan reports no matching live row; on any other scan error
it returns a nil error with the zero-valued message, discarding the database
error, whereas `ThreadService.Lookup` propagates such an error. -/
theorem c10_lookup_error_discarded (id : Nat) (scan : ScanResult StoredMessage)
    (tscan : ScanResult StoredThread) :
    ((messagesLookup id scan).2 = some ("message with id " ++ toString id ++ " not found")
        ↔ scan = ScanResult.noRows)
    ∧ (∀ e, scan = ScanResult.otherErr e →
        messagesLookup id scan = (some zeroStoredMessage, none))
    ∧ (∀ e, tscan = ScanResult.otherErr e → (threadsLookup id tscan).2 = some e) := by
  refine ⟨?_, ?_, ?_⟩
  · cases scan <;> simp [messagesLookup]
  · intro e he; subst he; rfl
  · intro e he; subst he; rfl

/-- Concrete run of claim C10: a "disk failure" scan error is discarded by
the message lookup but propagated by the thread lookup. -/
theorem c10_lookup_error_discarded_witness :
    messagesLookup 7 (ScanResult.otherErr "disk failure")
      = (some zeroStoredMessage, none)
    ∧ (threadsLookup 7 (ScanResult.otherErr "disk failure")).2 = some "disk failure" :=
  ⟨(c10_lookup_error_discarded 7 (ScanResult.otherErr "disk failure")
      (ScanResult.otherErr "disk failure")).2.1 "disk failure" rfl,
   (c10_lookup_error_discarded 7 (ScanResult.otherErr "disk failure")
      (ScanResult.otherErr "disk failure")).2.2 "disk failure" rfl⟩
